import Mathlib

set_option maxRecDepth 8000

/-! Verification of the error-detection-and-auto-repair control loop.

Shallow embedding of the auto-repair pipeline of this repository:

* `verifyFixes`, `parseFixedFiles`, `extractExplanation`, `fixWithReasoning`
  from `src/server/services/smartSandboxErrorFixerService.js`;
* `parseReasoningResponse`, `reasonAboutErrorFix` from the reasoning service;
* the Sandpack `ErrorMonitor` admission gate and the `handleSandboxError`
  repair-session driver from `src/frontend/src/components/CodePreview.tsx`.

Modelling conventions:

* JavaScript strings are Lean `String`s (`substring(0,100)` becomes
  `String.take 100`; the JS `\s` class is approximated by ASCII whitespace,
  `\w` is `[A-Za-z0-9_]` exactly).
* JS truthiness on optional strings/numbers is modelled explicitly
  (`""` and `0` are falsy).
* The two LLM oracle calls are external collaborators: each one is an input
  of type `Except String String` (network failure carries the raw error
  message, success carries the accumulated response text).  `JSON.parse` on
  an extracted JSON substring is likewise an external primitive, passed in as
  a function parameter; every theorem below either holds for all such parsers
  or exercises code paths on which the parser is never invoked.
* React state updates are modelled as immediately-visible sequential
  transitions of an explicit monitor state.
-/

/-! ## Basic string machinery -/

/-- ASCII approximation of the JS regex class `\s`. -/
def isWS (c : Char) : Bool :=
  c = ' ' || c = '\t' || c = '\n' || c = '\r' || c = '\x0b' || c = '\x0c'

/-- The JS regex class `\w`, exactly `[A-Za-z0-9_]`. -/
def isWordChar (c : Char) : Bool :=
  ('a' ≤ c && c ≤ 'z') || ('A' ≤ c && c ≤ 'Z') || ('0' ≤ c && c ≤ '9') || c = '_'

/-- Drop a literal character sequence from the front of a list, if present. -/
def dropLit : List Char → List Char → Option (List Char)
  | [], l => some l
  | _ :: _, [] => none
  | p :: ps, c :: cs => if p = c then dropLit ps cs else none

/-- JS `haystack.includes(needle)`: substring containment. -/
def containsSub (haystack needle : String) : Bool :=
  haystack.toList.tails.any (fun t => (dropLit needle.toList t).isSome)

/-- JS `String.prototype.trim()`: strip whitespace from both ends. -/
def trimStr (s : String) : String :=
  String.mk (((s.toList.dropWhile isWS).reverse.dropWhile isWS).reverse)

/-- Drop a literal character sequence from the front, comparing
case-insensitively (for the `/i` regex flags). -/
def dropLitCI : List Char → List Char → Option (List Char)
  | [], l => some l
  | _ :: _, [] => none
  | p :: ps, c :: cs => if p.toLower = c.toLower then dropLitCI ps cs else none

/-- Split a character list at the first occurrence of the literal marker
`===`, returning the part before it and the suffix starting at the marker. -/
def findMarkerSplit : List Char → Option (List Char × List Char)
  | [] => none
  | c :: rest =>
    if (dropLit ['=', '=', '='] (c :: rest)).isSome then some ([], c :: rest)
    else
      match findMarkerSplit rest with
      | some (pre, suf) => some (c :: pre, suf)
      | none => none

/-- The regex `/\{[\s\S]*\}/` of `String.prototype.match`: the (unique,
greedy) match runs from the first `\x7b` to the last `\x7d`; there is no match
unless some `\x7d` occurs strictly after the first `\x7b`. -/
def braceMatch (s : String) : Option String :=
  let l := s.toList
  match l.findIdx? (fun c => c = '\x7b') with
  | none => none
  | some i =>
    match l.reverse.findIdx? (fun c => c = '\x7d') with
    | none => none
    | some rj =>
      let j := l.length - 1 - rj
      if i < j then some (String.mk ((l.drop i).take (j - i + 1))) else none

/-! ## Fix Applicator & Verifier (`verifyFixes`,
`smartSandboxErrorFixerService.js` lines 275-307) -/

/-- Deterministic matcher for the JS regex
`/function\s+\w+\([^)]*\)\s*\{\s*\}/` anchored at the head of the list.
Each quantified class is disjoint from the literal that follows it, so
maximal munch coincides with the backtracking regex semantics. -/
def matchEmptyFnAt (l : List Char) : Bool :=
  match dropLit "function".toList l with
  | none => false
  | some r =>
    match r with
    | [] => false
    | c :: _ =>
      if !isWS c then false
      else
        let r := r.dropWhile isWS
        match r with
        | [] => false
        | c2 :: _ =>
          if !isWordChar c2 then false
          else
            let r := r.dropWhile isWordChar
            match r with
            | '(' :: r =>
              let r := r.dropWhile (fun c => c ≠ ')')
              match r with
              | ')' :: r =>
                let r := r.dropWhile isWS
                match r with
                | '\x7b' :: r =>
                  let r := r.dropWhile isWS
                  match r with
                  | '\x7d' :: _ => true
                  | _ => false
                | _ => false
              | _ => false
            | _ => false

/-- Whether `content.match(/function\s+\w+\([^)]*\)\s*\{\s*\}/)` is non-null:
a match may start at any position. -/
def hasEmptyFunction (content : String) : Bool :=
  content.toList.tails.any matchEmptyFnAt

/-- The verification report built by `verifyFixes`. -/
structure Verification where
  filesModified : Nat
  noEmptyFunctions : Bool
  noTODOComments : Bool
  validSyntax : Bool
  importsResolved : Bool
  warnings : List String
deriving DecidableEq, Repr

/-- One iteration of the `for (const [path, content] of Object.entries(...))`
loop of `verifyFixes`. -/
def verifyStep (v : Verification) (pc : String × String) : Verification :=
  let path := pc.1
  let content := pc.2
  let v :=
    if hasEmptyFunction content then
      { v with noEmptyFunctions := false,
               warnings := v.warnings ++ [path ++ ": Contains empty function"] }
    else v
  let v :=
    if containsSub content "// TODO" || containsSub content "// FIXME" then
      { v with noTODOComments := false,
               warnings := v.warnings ++ [path ++ ": Contains TODO/FIXME comments"] }
    else v
  if containsSub content "undefined" && !containsSub content "!== undefined" then
    { v with warnings := v.warnings ++ [path ++ ": May have undefined references"] }
  else v

/-- Source `verifyFixes(fixedFiles, originalError)` of
`smartSandboxErrorFixerService.js` (the `originalError` argument is unused by
the source body as well).  The patch is a key-ordered list of
`(path, content)` entries, mirroring `Object.entries`. -/
def verifyFixes (fixedFiles : List (String × String)) : Verification :=
  fixedFiles.foldl verifyStep
    { filesModified := fixedFiles.length
      noEmptyFunctions := true
      noTODOComments := true
      validSyntax := true
      importsResolved := true
      warnings := [] }

/-! ## Oracle-response parsing (`parseFixedFiles`, `extractExplanation`,
`smartSandboxErrorFixerService.js` lines 314-353) -/

/-- Head-match of the header part `\s*([^\n]+)\s*===\n` that follows an
opening `===` in the fallback file-block regex
`/===\s*([^\n]+)\s*===\n([\s\S]*?)(?====|$)/g`.  The leading `\s*` (which
spans newlines) is the `dropWhile`; the greedy `[^\n]+` capture cannot cross
a newline, so the longest candidate capture is the whole of `line`.  With
that capture the trailing `\s*` (which also spans newlines) must reach a
literal `===` at its first non-whitespace position, immediately followed by
`'\n'` — the first branch.  If that fails, backtracking shortens the capture;
since `'='` is not whitespace, the only other way to place the closing
`===\n` is as the final three characters of `line` itself with the newline
right after — the second branch, whose capture is `line` minus that `===`
(non-empty, as `[^\n]+` needs one character).  Captures are `.trim()`ed by
the caller as in the source. -/
def matchHeaderRest (l : List Char) : Option (String × List Char) :=
  let l1 := l.dropWhile isWS
  let line := l1.takeWhile (fun c => c ≠ '\n')
  if line.isEmpty then none
  else
    let after := l1.drop line.length
    match dropLit "===".toList (after.dropWhile isWS) with
    | some ('\n' :: rest) => some (String.mk line, rest)
    | _ =>
      match dropLit "===".toList line.reverse with
      | none => none
      | some caprev =>
        if caprev.isEmpty then none
        else
          match after with
          | '\n' :: rest => some (String.mk caprev.reverse, rest)
          | _ => none

/-- The repeated-`exec` loop over the fallback regex: each match starts at a
literal `===`; the lazy content capture `([\s\S]*?)(?====|$)` runs up to the
next `===` occurrence (not consumed) or the end of input.  A `===` that does
not begin a well-formed header is skipped and scanning resumes after it. -/
def fallbackBlocks : Nat → List Char → List (String × String)
  | 0, _ => []
  | fuel + 1, l =>
    match findMarkerSplit l with
    | none => []
    | some (_, suf) =>
      let after := suf.drop 3
      match matchHeaderRest after with
      | none => fallbackBlocks fuel after
      | some (path, afterHeader) =>
        match findMarkerSplit afterHeader with
        | none => [(trimStr path, trimStr (String.mk afterHeader))]
        | some (content, rest) =>
          (trimStr path, trimStr (String.mk content)) :: fallbackBlocks fuel rest

/-- Entry point of the fallback delimiter-based parse of `parseFixedFiles`. -/
def fallbackParse (response : String) : List (String × String) :=
  fallbackBlocks (response.length + 1) response.toList

/-- Result of `JSON.parse` on the brace-extracted substring of the
implementation-stage response, as far as `parseFixedFiles` and
`extractExplanation` inspect it: the `files` map and the `explanation`
string, each `none` when absent/falsy (`JSON.parse` failure itself is the
outer `Option`). -/
structure ParsedFix where
  files : Option (List (String × String))
  explanation : Option String
deriving DecidableEq, Repr

/-- Source `parseFixedFiles(response)`: try the JSON path (brace extraction, then the
external `JSON.parse` modelled by `jp`, then the truthiness check on
`parsed.files`); on any failure fall through to the delimiter-based parse. -/
def parseFixedFiles (jp : String → Option ParsedFix) (response : String) :
    List (String × String) :=
  match braceMatch response with
  | some sub =>
    match jp sub with
    | some parsed =>
      match parsed.files with
      | some fs => fs
      | none => fallbackParse response
    | none => fallbackParse response
  | none => fallbackParse response

/-- Source `extractExplanation(response)`: inside the `try`, a parsed
`explanation` falls back to the short default when falsy; a missing JSON
match or a `JSON.parse` throw returns the long default. -/
def extractExplanation (jp : String → Option ParsedFix) (response : String) :
    String :=
  match braceMatch response with
  | some sub =>
    match jp sub with
    | some parsed =>
      match parsed.explanation with
      | some e => if e = "" then "Applied fixes based on deep reasoning" else e
      | none => "Applied fixes based on deep reasoning"
    | none => "Applied fixes based on deep reasoning and codebase analysis"
  | none => "Applied fixes based on deep reasoning and codebase analysis"

/-! ## Reasoning service (`reasonAboutErrorFix`, `parseReasoningResponse`) -/

/-- One `replace(/^fence\s*/i, '')` step of the markdown cleanup. -/
def stripLeadFence (fence : String) (s : String) : String :=
  match dropLitCI fence.toList s.toList with
  | some rest => String.mk (rest.dropWhile isWS)
  | none => s

/-- The `replace(/\s*```$/i, '')` step of the markdown cleanup. -/
def stripTrailFence (s : String) : String :=
  match dropLit "```".toList s.toList.reverse with
  | some restRev => String.mk ((restRev.dropWhile isWS).reverse)
  | none => s

/-- The cleanup chain at the top of `parseReasoningResponse`. -/
def cleanFences (response : String) : String :=
  stripTrailFence (stripLeadFence "```" (stripLeadFence "```json" (trimStr response)))

/-- Source `parseReasoningResponse(response)`: clean fences, extract the brace
substring (throwing when there is none), then hand it to the external
`JSON.parse` (`jpR sub = false` models a parse throw).  On success the
extracted substring is returned; its parsed content is advisory prompt
input only and is not inspected further by any claim. -/
def parseReasoningResponse (jpR : String → Bool) (response : String) :
    Except String String :=
  let cleaned := cleanFences response
  match braceMatch cleaned with
  | none => Except.error "No valid JSON in reasoning output"
  | some sub => if jpR sub then Except.ok sub else Except.error "JSON parse error"

/-- Outcome of the Analyzing stage: either the parsed structured analysis
(opaque, carried as the extracted JSON substring), or the hand-built fallback
object of the `catch` block in `reasonAboutErrorFix`, which retains the
original error info and the raw caught error message (its `error` field). -/
inductive ReasonOutcome where
  | parsed (extracted : String)
  | fallback (errorInfo : String) (rawError : String)
deriving DecidableEq, Repr

/-- Source `reasonAboutErrorFix(errorInfo, existingFiles)`: the whole body sits in a
`try`; both a failing oracle stream (`resp = .error e`) and an unparsable
response are caught and converted into the fallback analysis object —
this function never throws. -/
def reasonAboutErrorFix (jpR : String → Bool) (errorInfo : String)
    (resp : Except String String) : ReasonOutcome :=
  match resp with
  | Except.error e => ReasonOutcome.fallback errorInfo e
  | Except.ok raw =>
    match parseReasoningResponse jpR raw with
    | Except.ok extracted => ReasonOutcome.parsed extracted
    | Except.error e => ReasonOutcome.fallback errorInfo e

/-! ## The repair pipeline (`fixWithReasoning`,
`smartSandboxErrorFixerService.js` lines 21-132) -/

/-- The `success: true` result object of `fixWithReasoning`. -/
structure FixSuccess where
  fixedFiles : List (String × String)
  explanation : String
  reasoning : ReasonOutcome
  verification : Verification
deriving DecidableEq, Repr

/-- Terminal result of one repair pipeline run: `ok` is the
`{success: true, ...}` object, `failed` the `{success: false, error, reasoning}`
object built in the `catch` block. -/
inductive FixResult where
  | ok (r : FixSuccess)
  | failed (error : String) (reasoning : ReasonOutcome)
deriving DecidableEq, Repr

def FixResult.isFailed : FixResult → Bool
  | FixResult.ok _ => false
  | FixResult.failed _ _ => true

def FixResult.reasoningOf : FixResult → ReasonOutcome
  | FixResult.ok r => r.reasoning
  | FixResult.failed _ rs => rs

def FixResult.patchOf : FixResult → Option (List (String × String))
  | FixResult.ok r => some r.fixedFiles
  | FixResult.failed _ _ => none

/-- Source `fixWithReasoning(error, files, fileStructure, onReasoningUpdate)`.
The two oracle calls are the inputs `reasonResp` (Analyzing stage) and
`implResp` (ImplementingFix stage); each is consumed exactly once — no retry.
The codebase-analysis stage (`analyzeCodebase`) is a pure, total text scan
whose output feeds only the oracle prompt and the advisory `analysis` field;
no claim inspects it, so it is not carried in the result here.  The only
statement inside the `try` that can throw is the implementation-stage stream
(`generateSmartFixes`): `reasonAboutErrorFix` catches internally, and
`parseFixedFiles`, `extractExplanation` and `verifyFixes` are total. -/
def fixWithReasoning (jpR : String → Bool) (jpF : String → Option ParsedFix)
    (error : String) (files : List (String × String))
    (reasonResp implResp : Except String String) : FixResult :=
  let reasoning := reasonAboutErrorFix jpR error reasonResp
  let _totalFiles := files.length
  match implResp with
  | Except.error e => FixResult.failed e reasoning
  | Except.ok response =>
    let fixedFiles := parseFixedFiles jpF response
    FixResult.ok
      { fixedFiles := fixedFiles
        explanation := extractExplanation jpF response
        reasoning := reasoning
        verification := verifyFixes fixedFiles }

/-! ## Frontend file-set merge (`handleSandboxError`,
`CodePreview.tsx` lines 344-366) -/

/-- One entry of the Project File Set (a `GeneratedFile`). -/
structure FrontFile where
  path : String
  content : String
deriving DecidableEq, Repr

/-- JS object indexing `patch[key]` (patch keys are unique in a parsed JSON
object; first match). -/
def lookupJS : List (String × String) → String → Option String
  | [], _ => none
  | (k, v) :: rest, key => if k = key then some v else lookupJS rest key

/-- JS truthiness of a possibly-absent string (`undefined` and `""` falsy). -/
def truthyS : Option String → Bool
  | none => false
  | some s => s ≠ ""

/-- The JS `a || b` on possibly-absent strings. -/
def jsOrOpt (a b : Option String) : Option String := if truthyS a then a else b

/-- The `files.map(...)` body: `fixedFiles[file.path] || fixedFiles['/'+file.path]`
followed by the `if (fixedContent)` truthiness guard. -/
def overwriteOne (patch : List (String × String)) (f : FrontFile) : FrontFile :=
  match jsOrOpt (lookupJS patch f.path) (lookupJS patch ("/" ++ f.path)) with
  | some c => if c = "" then f else { f with content := c }
  | none => f

/-- The `Object.entries(fixedFiles).forEach` insertion loop: push each patch
entry whose path matches no file of the original file set (with or without a
leading slash). -/
def newEntries (files : List FrontFile) (patch : List (String × String)) :
    List FrontFile :=
  (patch.filter
    (fun pc => !files.any (fun f => f.path = pc.1 || "/" ++ f.path = pc.1))).map
    (fun pc => { path := pc.1, content := pc.2 })

/-- The merge performed on an accepted repair result (`updatedFiles`). -/
def applyFixedFiles (files : List FrontFile) (patch : List (String × String)) :
    List FrontFile :=
  files.map (overwriteOne patch) ++ newEntries files patch

/-! ## Repair-session driver (`handleSandboxError`,
`CodePreview.tsx` lines 274-383)

The SSE transport (the `'\n\n'` framing and `JSON.parse` of each `data:`
line) is an external interface; the stream is modelled as the list of decoded
records it delivers.  Each loop iteration first checks `stopSignal.stopped`
and breaks; `await reader.read()` either yields a chunk of records or — when
the user-triggered `AbortController.abort()` fires while the read is pending
(the `useEffect` on `stopSignal.stopped`) — rejects, which lands in the
function's generic `catch` block. -/

/-- One decoded SSE record. -/
inductive SSEData where
  | progress
  | errorEvt (err : String)
  | completeEvt (success : Bool) (fixedFiles : Option (List (String × String)))
deriving DecidableEq, Repr

/-- The retained `finalResult` fields the apply-guard inspects. -/
structure CompleteData where
  success : Bool
  fixedFiles : Option (List (String × String))
deriving DecidableEq, Repr

/-- One `await reader.read()`: a resolved chunk of records, or a rejection
caused by the abort of the in-flight request. -/
inductive LoopItem where
  | readChunk (datas : List SSEData)
  | readAborts
deriving DecidableEq, Repr

/-- One observed execution of the session: whether `response.ok` held, the
reads the loop performed, and the iteration index before which
`stopSignal.stopped` became `true` (`none` = the user never cancelled before
the final apply check). -/
structure SessionRun where
  responseOk : Bool
  items : List LoopItem
  stopIdx : Option Nat
deriving DecidableEq, Repr

/-- Value of `stopSignal.stopped` at the top of loop iteration `i`. -/
def flagAt (stopIdx : Option Nat) (i : Nat) : Bool :=
  match stopIdx with
  | none => false
  | some k => decide (k ≤ i)

/-- The `for (const line of lines)` body: an `error` record throws, a
`complete` record replaces `finalResult`, anything else is a progress
update. -/
def processDatas : Option CompleteData → List SSEData → Except String (Option CompleteData)
  | fr, [] => Except.ok fr
  | fr, d :: rest =>
    match d with
    | SSEData.progress => processDatas fr rest
    | SSEData.errorEvt e => Except.error e
    | SSEData.completeEvt s ff => processDatas (some { success := s, fixedFiles := ff }) rest

/-- The `while (reader)` loop: stop-flag check, then the read, then record
processing.  Returns the retained `finalResult` and whether the loop exited
through the cancellation `break`. -/
def processLoop (stopIdx : Option Nat) :
    List LoopItem → Nat → Option CompleteData →
      Except String (Option CompleteData × Bool)
  | items, i, fr =>
    if flagAt stopIdx i then Except.ok (fr, true)
    else
      match items with
      | [] => Except.ok (fr, false)
      | LoopItem.readAborts :: _ => Except.error "AbortError"
      | LoopItem.readChunk ds :: rest =>
        match processDatas fr ds with
        | Except.error e => Except.error e
        | Except.ok fr2 => processLoop stopIdx rest (i + 1) fr2

/-- Terminal behaviour of one `handleSandboxError` call, as observable by the
user and the file-set owner. -/
inductive Outcome where
  /-- The apply-guard passed: `onFilesFixed` was invoked with the merged
  file set (success toast). -/
  | applied (newFiles : List FrontFile)
  /-- The session was cancelled and ended without merging and without any
  error toast (the quiet path; `handleStopFixing` already showed the
  info toast). -/
  | abortedQuiet
  /-- The `catch` block ran: `toast.error('Failed to auto-fix the error')`,
  the `errorHash` is evicted from `fixedErrors` and `lastErrorHash` reset. -/
  | failedCaught (evictedHash : String)
  /-- The loop finished un-cancelled but the result was absent or
  unsuccessful: nothing happens. -/
  | noApply
deriving DecidableEq, Repr

/-- Source `handleSandboxError(error, errorHash)` after the fetch: a non-ok response
throws; the SSE loop runs; then the guard
`!stopSignal.stopped && finalResult?.success && finalResult?.fixedFiles`
decides whether the merge `applyFixedFiles` is invoked (note: an *empty*
`fixedFiles` object is truthy in JS and passes the guard). -/
def runSession (files : List FrontFile) (errorHash : String) (run : SessionRun) :
    Outcome :=
  if !run.responseOk then Outcome.failedCaught errorHash
  else
    match processLoop run.stopIdx run.items 0 none with
    | Except.error _ => Outcome.failedCaught errorHash
    | Except.ok (fr, _) =>
      if run.stopIdx.isSome then Outcome.abortedQuiet
      else
        match fr with
        | some cd =>
          if cd.success then
            match cd.fixedFiles with
            | some patch => Outcome.applied (applyFixedFiles files patch)
            | none => Outcome.noApply
          else Outcome.noApply
        | none => Outcome.noApply

/-! ## Build Event Observer and Dedup/Cooldown Gate (`ErrorMonitor`,
`CodePreview.tsx` lines 136-272)

React state updates (`setX`) and the `listen` callback are modelled as a
state machine with immediately-visible sequential transitions.  The 5-second
`setTimeout` that resets `errorCooldown` is the explicit `cooldownTimer`
event (it fires exactly 5000ms after the accept that scheduled it); the
asynchronous termination of `handleSandboxError` feeds back into the monitor
as the `fixApplied` / `fixFailed` events (lines 367-369 and 375-381). -/

/-- One entry of a Sandpack `console` message's `log` array. -/
structure ConsoleLog where
  isObject : Bool
  method : String
  data : Option (List String)
deriving DecidableEq, Repr

/-- The Sandpack messages distinguished by the listener (the `type`/`action`
discriminants of lines 166-228); `stateMsg` stands for every other shape,
which matches no branch. -/
inductive SPMessage where
  | done (compilatonError : Bool)
  | showError (message title : Option String) (line column : Option Nat)
      (path : Option String)
  | notification (notificationType : String) (title : Option String)
  | consoleMsg (codesandbox : Bool) (log : Option (List ConsoleLog))
  | stateMsg
deriving DecidableEq, Repr

/-- The JS `a || b` for an optional string against a default (`""` falsy). -/
def jsOrStr (a : Option String) (b : String) : String :=
  match a with
  | some s => if s = "" then b else s
  | none => b

/-- The check `message.type === 'done' && message.compilatonError !== true`
(the field name reproduces the source's spelling). -/
def isSuccessMsg : SPMessage → Bool
  | SPMessage.done ce => !ce
  | _ => false

/-- Derivation of `(errorType, errorMessage)` from one message
(lines 179-228); `none` when `errorMessage` stays empty, mirroring the
`if (errorMessage)` truthiness guard. -/
def classify : SPMessage → Option (String × String)
  | SPMessage.done ce =>
    if ce then some ("Compilation Failed", "Build completed with compilation errors")
    else none
  | SPMessage.showError message title line column path =>
    let em := jsOrStr message (jsOrStr title "Compilation failed")
    let em := match line with
      | some n => if n ≠ 0 then em ++ "\nLine: " ++ toString n else em
      | none => em
    let em := match column with
      | some n => if n ≠ 0 then em ++ ", Column: " ++ toString n else em
      | none => em
    let em := match path with
      | some p => if p ≠ "" then em ++ "\nFile: " ++ p else em
      | none => em
    some ("Compilation Error", em)
  | SPMessage.notification notificationType title =>
    if notificationType = "error" then
      some ("Build Error", jsOrStr title "Build notification error")
    else none
  | SPMessage.consoleMsg codesandbox log =>
    if codesandbox then
      match log with
      | none => none
      | some logs =>
        let errorLogs := logs.filter
          (fun lg => lg.isObject && (lg.method = "error" || lg.method = "warn"))
        if errorLogs.isEmpty then none
        else
          let em := String.intercalate "\n" (errorLogs.map
            (fun lg => match lg.data with
              | some d => String.intercalate " " d
              | none => ""))
          if containsSub em "Error" || containsSub em "Syntax"
              || containsSub em "Warning" then
            some ("Runtime Error", em)
          else none
    else none
  | SPMessage.stateMsg => none

/-- The dedup fingerprint `` `${errorType}:${errorMessage.substring(0, 100)}` ``. -/
def mkHash (errorType errorMessage : String) : String :=
  errorType ++ ":" ++ errorMessage.take 100

/-- The monitor's React state: `lastErrorHash`, `fixedErrors`
(`seenFingerprints`), `errorCooldown`, `lastSuccessTime`. -/
structure MonitorState where
  lastErrorHash : String
  fixedErrors : List String
  errorCooldown : Bool
  lastSuccessTime : Nat
deriving DecidableEq, Repr

/-- The initial `useState` values of the monitor. -/
def monitorInit : MonitorState :=
  { lastErrorHash := "", fixedErrors := [], errorCooldown := false,
    lastSuccessTime := 0 }

/-- JS `new Set(prev).add(errorHash)`. -/
def insertHash (h : String) (l : List String) : List String :=
  if h ∈ l then l else h :: l

/-- Events consumed by the monitor: a Sandpack message processed at wall time
`now`, the firing of the 5s cooldown `setTimeout`, and the two asynchronous
session terminations that write monitor state. -/
inductive MEvent where
  | msg (m : SPMessage) (now : Nat)
  | cooldownTimer
  | fixApplied (now : Nat)
  | fixFailed (hash : String)
deriving DecidableEq, Repr

/-- One transition.  The second component is the admission decision for a
message event: `some (errorType, errorMessage, errorHash)` means the fault is
Accepted and `handleSandboxError` is triggered; `none` means Suppress (or a
non-fault message). -/
def monitorStep (s : MonitorState) :
    MEvent → MonitorState × Option (String × String × String)
  | MEvent.msg m now =>
    if isSuccessMsg m then
      ({ s with fixedErrors := [], errorCooldown := false,
                lastSuccessTime := now }, none)
    else
      match classify m with
      | none => (s, none)
      | some (et, em) =>
        let h := mkHash et em
        if s.errorCooldown then (s, none)
        else if h ∈ s.fixedErrors then (s, none)
        else if h ≠ s.lastErrorHash then
          if now - s.lastSuccessTime < 2000 then (s, none)
          else
            ({ lastErrorHash := h, fixedErrors := insertHash h s.fixedErrors,
               errorCooldown := true, lastSuccessTime := s.lastSuccessTime },
             some (et, em, h))
        else (s, none)
  | MEvent.cooldownTimer => ({ s with errorCooldown := false }, none)
  | MEvent.fixApplied now =>
    ({ s with lastErrorHash := "", lastSuccessTime := now }, none)
  | MEvent.fixFailed hash =>
    ({ s with fixedErrors := s.fixedErrors.filter (fun x => x ≠ hash),
              lastErrorHash := "" }, none)

/-- Fold a list of events through the monitor, keeping the state. -/
def runMonitor (s : MonitorState) : List MEvent → MonitorState
  | [] => s
  | e :: rest => runMonitor (monitorStep s e).1 rest


/-! ## Theorems -/
/-! ### Fold invariants for `verifyFixes` -/

theorem verifyStep_validSyntax (v : Verification) (pc : String × String) :
    (verifyStep v pc).validSyntax = v.validSyntax := by
  cases h1 : hasEmptyFunction pc.2 <;>
  cases h2 : (containsSub pc.2 "// TODO" || containsSub pc.2 "// FIXME") <;>
  cases h3 : (containsSub pc.2 "undefined" && !containsSub pc.2 "!== undefined") <;>
  simp [verifyStep, h1, h2, h3]

theorem verifyStep_importsResolved (v : Verification) (pc : String × String) :
    (verifyStep v pc).importsResolved = v.importsResolved := by
  cases h1 : hasEmptyFunction pc.2 <;>
  cases h2 : (containsSub pc.2 "// TODO" || containsSub pc.2 "// FIXME") <;>
  cases h3 : (containsSub pc.2 "undefined" && !containsSub pc.2 "!== undefined") <;>
  simp [verifyStep, h1, h2, h3]

theorem verifyStep_filesModified (v : Verification) (pc : String × String) :
    (verifyStep v pc).filesModified = v.filesModified := by
  cases h1 : hasEmptyFunction pc.2 <;>
  cases h2 : (containsSub pc.2 "// TODO" || containsSub pc.2 "// FIXME") <;>
  cases h3 : (containsSub pc.2 "undefined" && !containsSub pc.2 "!== undefined") <;>
  simp [verifyStep, h1, h2, h3]

theorem verifyStep_noEmptyFunctions (v : Verification) (pc : String × String) :
    (verifyStep v pc).noEmptyFunctions
      = (v.noEmptyFunctions && !hasEmptyFunction pc.2) := by
  cases h1 : hasEmptyFunction pc.2 <;>
  cases h2 : (containsSub pc.2 "// TODO" || containsSub pc.2 "// FIXME") <;>
  cases h3 : (containsSub pc.2 "undefined" && !containsSub pc.2 "!== undefined") <;>
  simp [verifyStep, h1, h2, h3]

theorem verifyStep_noTODOComments (v : Verification) (pc : String × String) :
    (verifyStep v pc).noTODOComments
      = (v.noTODOComments
          && !(containsSub pc.2 "// TODO" || containsSub pc.2 "// FIXME")) := by
  cases h1 : hasEmptyFunction pc.2 <;>
  cases h2 : (containsSub pc.2 "// TODO" || containsSub pc.2 "// FIXME") <;>
  cases h3 : (containsSub pc.2 "undefined" && !containsSub pc.2 "!== undefined") <;>
  simp [verifyStep, h1, h2, h3]

theorem verifyFold_validSyntax (fs : List (String × String)) (v : Verification) :
    (fs.foldl verifyStep v).validSyntax = v.validSyntax := by
  induction fs generalizing v with
  | nil => rfl
  | cons pc rest ih => simp [List.foldl, ih, verifyStep_validSyntax]

theorem verifyFold_importsResolved (fs : List (String × String)) (v : Verification) :
    (fs.foldl verifyStep v).importsResolved = v.importsResolved := by
  induction fs generalizing v with
  | nil => rfl
  | cons pc rest ih => simp [List.foldl, ih, verifyStep_importsResolved]

theorem verifyFold_noEmptyFunctions (fs : List (String × String)) (v : Verification) :
    (fs.foldl verifyStep v).noEmptyFunctions
      = (v.noEmptyFunctions && !fs.any (fun pc => hasEmptyFunction pc.2)) := by
  induction fs generalizing v with
  | nil => simp [List.foldl]
  | cons pc rest ih =>
    simp [List.foldl, ih, verifyStep_noEmptyFunctions, Bool.and_assoc]

theorem verifyFold_noTODOComments (fs : List (String × String)) (v : Verification) :
    (fs.foldl verifyStep v).noTODOComments
      = (v.noTODOComments
          && !fs.any (fun pc =>
                containsSub pc.2 "// TODO" || containsSub pc.2 "// FIXME")) := by
  induction fs generalizing v with
  | nil => simp [List.foldl]
  | cons pc rest ih =>
    simp [List.foldl, ih, verifyStep_noTODOComments, Bool.and_assoc]

/-- Claim C10: For every patch, the report of `verifyFixes` has
`checks.validSyntax` and `checks.importsResolved` equal to `true` (no code
path ever sets them to `false`); the two remaining check booleans are
determined solely by the empty-function and TODO/FIXME patterns, so the
unhandled-`undefined` heuristic (which only appends to `warnings`) never
changes any check boolean; and the patch is only read, never mutated —
in this embedding `verifyFixes` is a function from the patch to a fresh
`Verification` record and returns nothing else. -/
theorem c10_verifyFixes_checks_invariant (fs : List (String × String)) :
    (verifyFixes fs).validSyntax = true
      ∧ (verifyFixes fs).importsResolved = true
      ∧ (verifyFixes fs).noEmptyFunctions
          = !fs.any (fun pc => hasEmptyFunction pc.2)
      ∧ (verifyFixes fs).noTODOComments
          = !fs.any (fun pc =>
                containsSub pc.2 "// TODO" || containsSub pc.2 "// FIXME")
      ∧ (verifyFixes fs).filesModified = fs.length := by
  refine ⟨?_, ?_, ?_, ?_, ?_⟩
  · rw [verifyFixes, verifyFold_validSyntax]
  · rw [verifyFixes, verifyFold_importsResolved]
  · rw [verifyFixes, verifyFold_noEmptyFunctions]; rfl
  · rw [verifyFixes, verifyFold_noTODOComments]; rfl
  · have h : ∀ (l : List (String × String)) (v : Verification),
        (l.foldl verifyStep v).filesModified = v.filesModified := by
      intro l
      induction l with
      | nil => intro v; rfl
      | cons pc rest ih =>
        intro v
        simp [List.foldl, ih, verifyStep_filesModified]
    rw [verifyFixes, h]

/-! ## Helper lemmas -/

theorem fallbackBlocks_of_no_marker (fuel : Nat) (l : List Char)
    (h : findMarkerSplit l = none) : fallbackBlocks fuel l = [] := by
  cases fuel <;> simp [fallbackBlocks, h]

theorem overwriteOne_nil (f : FrontFile) : overwriteOne [] f = f := rfl

theorem applyFixedFiles_nil (files : List FrontFile) :
    applyFixedFiles files [] = files := by
  have h : overwriteOne [] = id := funext (fun f => rfl)
  simp [applyFixedFiles, newEntries, h]

theorem applyFixedFiles_getElem (files : List FrontFile)
    (patch : List (String × String)) (i : Nat) (hi : i < files.length) :
    (applyFixedFiles files patch)[i]? = some (overwriteOne patch files[i]) := by
  have hlen : i < (files.map (overwriteOne patch)).length := by
    simpa using hi
  rw [applyFixedFiles, List.getElem?_append, if_pos hlen, List.getElem?_map,
      List.getElem?_eq_getElem hi]
  rfl

/-! ## C9 — partial patch merge -/

/-- Claim C9, counterexample:  The claim states that merging a patch updates
*every* path present in the patch, overwriting existing paths.  It is false:
the source guards the overwrite with the JS truthiness check
`if (fixedContent)`, so a patch entry whose content is the empty string is
silently dropped for an existing path — here the patch contains
`/src/App.tsx` yet the file keeps its pre-merge content. -/
theorem c9_counterexample :
    applyFixedFiles [{ path := "/src/App.tsx", content := "const a = 1" }]
        [("/src/App.tsx", "")]
      = [{ path := "/src/App.tsx", content := "const a = 1" }] := by decide

/-- Claim C9, amended:  Merging a patch:
(1) every file whose path is matched by no patch entry (neither directly nor
through the leading-slash normalisation) keeps its entry byte-identical;
(2) an existing file matched directly by a patch entry with *non-empty*
content is overwritten with that content (an empty-content entry leaves the
file unchanged, per the counterexample);
(3) an existing file whose direct lookup is falsy (absent or empty) but whose
slash-normalised path `'/' ++ path` is matched by a patch entry with
non-empty content is overwritten with that content (the source's
`fixedFiles[file.path] || fixedFiles['/'+file.path]`);
(4) every patch entry matching no existing file is inserted as a new file. -/
theorem c9_amended (files : List FrontFile) (patch : List (String × String))
    (i : Nat) (hi : i < files.length) :
    ((lookupJS patch files[i].path = none ∧
        lookupJS patch ("/" ++ files[i].path) = none) →
      (applyFixedFiles files patch)[i]? = some files[i])
  ∧ (∀ c, lookupJS patch files[i].path = some c → c ≠ "" →
      (applyFixedFiles files patch)[i]? =
        some { path := files[i].path, content := c })
  ∧ (∀ c, truthyS (lookupJS patch files[i].path) = false →
      lookupJS patch ("/" ++ files[i].path) = some c → c ≠ "" →
      (applyFixedFiles files patch)[i]? =
        some { path := files[i].path, content := c })
  ∧ (∀ p c, (p, c) ∈ patch →
      (∀ g ∈ files, g.path ≠ p ∧ "/" ++ g.path ≠ p) →
      FrontFile.mk p c ∈ applyFixedFiles files patch) := by
  refine ⟨?_, ?_, ?_, ?_⟩
  · rintro ⟨h1, h2⟩
    rw [applyFixedFiles_getElem files patch i hi]
    simp [overwriteOne, h1, h2, jsOrOpt, truthyS]
  · intro c h1 hc
    rw [applyFixedFiles_getElem files patch i hi]
    simp [overwriteOne, h1, jsOrOpt, truthyS, hc]
  · intro c h1 h2 hc
    rw [applyFixedFiles_getElem files patch i hi]
    simp [overwriteOne, jsOrOpt, h1, h2, hc]
  · intro p c hmem hnone
    have hfilter : (p, c) ∈ patch.filter
        (fun pc => !files.any (fun f => f.path = pc.1 || "/" ++ f.path = pc.1)) := by
      rw [List.mem_filter]
      refine ⟨hmem, ?_⟩
      simp only [Bool.not_eq_true', List.any_eq_false]
      intro f hf
      have := hnone f hf
      simp [this.1, this.2]
    have : FrontFile.mk p c ∈ newEntries files patch := by
      rw [newEntries]
      exact List.mem_map_of_mem _ hfilter
    exact List.mem_append_right _ this

/-- Witness for `c9_amended` at concrete file sets and patches: the untouched
file keeps its content, a directly-matched file is overwritten, and a file
matched only through the leading-slash normalisation is overwritten too. -/
theorem c9_amended_witness :
    (applyFixedFiles [{ path := "a.ts", content := "x" }, { path := "b.ts", content := "y" }]
        [("a.ts", "z")])[1]? = some { path := "b.ts", content := "y" }
  ∧ (applyFixedFiles [{ path := "a.ts", content := "x" }, { path := "b.ts", content := "y" }]
        [("a.ts", "z")])[0]? = some { path := "a.ts", content := "z" }
  ∧ (applyFixedFiles [{ path := "a.ts", content := "x" }, { path := "b.ts", content := "y" }]
        [("/b.ts", "w")])[1]? = some { path := "b.ts", content := "w" } :=
  ⟨(c9_amended [{ path := "a.ts", content := "x" }, { path := "b.ts", content := "y" }]
      [("a.ts", "z")] 1 (by decide)).1 (by decide),
   (c9_amended [{ path := "a.ts", content := "x" }, { path := "b.ts", content := "y" }]
      [("a.ts", "z")] 0 (by decide)).2.1 "z" (by decide) (by decide),
   (c9_amended [{ path := "a.ts", content := "x" }, { path := "b.ts", content := "y" }]
      [("/b.ts", "w")] 1 (by decide)).2.2.1 "w" (by decide) (by decide) (by decide)⟩

/-! ## C1 — malformed implementation-stage oracle response -/

/-- Claim C1, counterexample:  The claim states that an implementation-stage
response with no JSON object and no file-block markers makes the session end
`Failed` with no file-set mutation.  The code instead returns an *empty*
patch from both parse strategies and reports `success: true`: the session
ends in the Complete path, not Failed.  (An empty `fixedFiles` object is
truthy in JS, so the frontend apply-guard also passes and invokes the merge
with the empty patch, leaving every file's content unchanged.) -/
theorem c1_counterexample :
    (fixWithReasoning (fun _ => false) (fun _ => none) "TypeError: boom"
        [("/src/App.tsx", "const a = 1")]
        (Except.ok "no structured analysis")
        (Except.ok "Sorry, I cannot determine the problem.")).isFailed = false
  ∧ (fixWithReasoning (fun _ => false) (fun _ => none) "TypeError: boom"
        [("/src/App.tsx", "const a = 1")]
        (Except.ok "no structured analysis")
        (Except.ok "Sorry, I cannot determine the problem.")).patchOf = some []
  ∧ runSession [{ path := "/src/App.tsx", content := "const a = 1" }]
        "Compilation Error:TypeError: boom"
        { responseOk := true
          items := [LoopItem.readChunk [SSEData.completeEvt true (some [])]]
          stopIdx := none }
      = Outcome.applied [{ path := "/src/App.tsx", content := "const a = 1" }] := by
  refine ⟨by decide, by decide, by decide⟩

/-- Claim C1, amended:  When the implementation-stage response contains no
JSON object (the `/\{[\s\S]*\}/` extraction finds nothing) and no `===`
file-block marker, the session does *not* end `Failed`: `fixWithReasoning`
returns `success: true` with an empty patch, and merging the empty patch
leaves the Project File Set unchanged.  This holds for every `JSON.parse`
behaviour, since the parser is never reached on this path. -/
theorem c1_amended (jpR : String → Bool) (jpF : String → Option ParsedFix)
    (error : String) (files : List (String × String))
    (frontFiles : List FrontFile)
    (reasonResp : Except String String) (response : String)
    (hJson : braceMatch response = none)
    (hMarker : findMarkerSplit response.toList = none) :
    (fixWithReasoning jpR jpF error files reasonResp (Except.ok response)).isFailed = false
  ∧ (fixWithReasoning jpR jpF error files reasonResp (Except.ok response)).patchOf
      = some []
  ∧ applyFixedFiles frontFiles [] = frontFiles := by
  have hparse : parseFixedFiles jpF response = [] := by
    rw [parseFixedFiles, hJson, fallbackParse,
        fallbackBlocks_of_no_marker _ _ hMarker]
  refine ⟨?_, ?_, applyFixedFiles_nil frontFiles⟩
  · rw [fixWithReasoning]; rfl
  · rw [fixWithReasoning]
    simp only [FixResult.patchOf, hparse]

/-- Witness for `c1_amended`: a concrete markerless, brace-free response. -/
theorem c1_amended_witness :
    (fixWithReasoning (fun _ => true) (fun _ => none) "E"
        [("/a.ts", "x")] (Except.error "net")
        (Except.ok "I am unable to help with that.")).isFailed = false
  ∧ (fixWithReasoning (fun _ => true) (fun _ => none) "E"
        [("/a.ts", "x")] (Except.error "net")
        (Except.ok "I am unable to help with that.")).patchOf = some []
  ∧ applyFixedFiles [{ path := "/a.ts", content := "x" }] []
      = [{ path := "/a.ts", content := "x" }] :=
  c1_amended (fun _ => true) (fun _ => none) "E" [("/a.ts", "x")]
    [{ path := "/a.ts", content := "x" }] (Except.error "net")
    "I am unable to help with that." (by decide) (by decide)

/-! ## C2 — failure of the Analyzing-stage oracle call -/

/-- Claim C2, counterexample:  The claim states that a failing Analyzing-stage
oracle call transitions the session directly to `Failed`.  It is false: the
`try`/`catch` inside `reasonAboutErrorFix` absorbs the error and returns a
fallback analysis object, and the pipeline *continues*; with a subsequently
successful implementation stage the session ends with `success: true`. -/
theorem c2_counterexample :
    (fixWithReasoning (fun _ => false) (fun _ => none)
        "ReferenceError: x is not defined" [("/src/main.tsx", "const b = 2")]
        (Except.error "network error: ECONNREFUSED")
        (Except.ok "done")).isFailed = false
  ∧ (fixWithReasoning (fun _ => false) (fun _ => none)
        "ReferenceError: x is not defined" [("/src/main.tsx", "const b = 2")]
        (Except.error "network error: ECONNREFUSED")
        (Except.ok "done")).reasoningOf
      = ReasonOutcome.fallback "ReferenceError: x is not defined"
          "network error: ECONNREFUSED" := by
  refine ⟨by decide, by decide⟩

/-- Claim C2, amended:  When the Analyzing-stage oracle call fails — a
network error (`reasonResp = Except.error e`) *or* a malformed/unparsable
structured response (`reasonResp = Except.ok raw` whose parse throws with
message `e`: no JSON object in the cleaned text, or a `JSON.parse` throw) —
the failure is absorbed inside the reasoning service's `catch`: the session
keeps running with the fallback analysis object, which retains the raw error
message `e` in its `error` field; the call is made exactly once (no retry);
and the session does not reach `Failed` on account of it — it fails only if
a *later* stage fails. -/
theorem c2_amended (jpR : String → Bool) (jpF : String → Option ParsedFix)
    (error : String) (files : List (String × String))
    (reasonResp : Except String String) (e : String) (response : String)
    (hfail : reasonResp = Except.error e
      ∨ ∃ raw, reasonResp = Except.ok raw
          ∧ parseReasoningResponse jpR raw = Except.error e) :
    (fixWithReasoning jpR jpF error files reasonResp
        (Except.ok response)).isFailed = false
  ∧ (fixWithReasoning jpR jpF error files reasonResp
        (Except.ok response)).reasoningOf = ReasonOutcome.fallback error e := by
  have hreason : reasonAboutErrorFix jpR error reasonResp
      = ReasonOutcome.fallback error e := by
    rcases hfail with h | ⟨raw, hr, hp⟩
    · rw [h]; rfl
    · rw [hr]
      have hred : reasonAboutErrorFix jpR error (Except.ok raw)
          = (match parseReasoningResponse jpR raw with
             | Except.ok extracted => ReasonOutcome.parsed extracted
             | Except.error e2 => ReasonOutcome.fallback error e2) := rfl
      rw [hred, hp]
  refine ⟨rfl, ?_⟩
  show reasonAboutErrorFix jpR error reasonResp = ReasonOutcome.fallback error e
  exact hreason

/-- Witness for `c2_amended`, exercising the malformed-response mode: the
analyzing oracle answers free text with no JSON object, whose parse throws,
yet the pipeline ends with `success: true` and the fallback analysis. -/
theorem c2_amended_witness :
    (fixWithReasoning (fun _ => false) (fun _ => none) "E" [("/a.ts", "x")]
        (Except.ok "I could not produce a structured analysis")
        (Except.ok "done")).isFailed = false
  ∧ (fixWithReasoning (fun _ => false) (fun _ => none) "E" [("/a.ts", "x")]
        (Except.ok "I could not produce a structured analysis")
        (Except.ok "done")).reasoningOf
      = ReasonOutcome.fallback "E" "No valid JSON in reasoning output" :=
  c2_amended (fun _ => false) (fun _ => none) "E" [("/a.ts", "x")]
    (Except.ok "I could not produce a structured analysis")
    "No valid JSON in reasoning output" "done"
    (Or.inr ⟨"I could not produce a structured analysis", rfl, by rfl⟩)

/-! ## C4 — cancellation during ImplementingFix -/

/-- Claim C4, counterexample:  The claim states that cancellation during
`ImplementingFix` results in the `Aborted` terminal state.  When the user's
Stop click fires the `AbortController` while the stream read is pending, the
rejected read lands in the generic `catch` block: the session takes the
failure path (`toast.error` plus fingerprint eviction), not the quiet
aborted path. -/
theorem c4_counterexample :
    runSession [{ path := "/src/App.tsx", content := "const a = 1" }]
        "Compilation Error:x"
        { responseOk := true, items := [LoopItem.readAborts], stopIdx := some 1 }
      = Outcome.failedCaught "Compilation Error:x"
  ∧ Outcome.failedCaught "Compilation Error:x" ≠ Outcome.abortedQuiet := by
  refine ⟨by decide, by decide⟩

/-- Claim C4, amended:  Whenever cancellation is triggered before the final
apply check (at whatever stage), the file-set merge is never invoked — the
outcome is never `applied`, so the Project File Set is unchanged.  The
terminal behaviour is the quiet aborted path when the loop observes the stop
flag, but the generic failure path when the abort interrupts an in-flight
read or an error had already been thrown. -/
theorem c4_amended (files : List FrontFile) (h : String) (run : SessionRun)
    (hstop : run.stopIdx.isSome = true) :
    (runSession files h run = Outcome.abortedQuiet
      ∨ runSession files h run = Outcome.failedCaught h)
  ∧ ∀ nf, runSession files h run ≠ Outcome.applied nf := by
  have main : runSession files h run = Outcome.abortedQuiet
      ∨ runSession files h run = Outcome.failedCaught h := by
    rw [runSession]
    cases hok : run.responseOk with
    | false => right; rfl
    | true =>
      simp only [Bool.not_true, Bool.false_eq_true, if_false]
      cases hpl : processLoop run.stopIdx run.items 0 none with
      | error e => right; rfl
      | ok pr => left; simp [hstop]
  refine ⟨main, ?_⟩
  intro nf
  rcases main with h1 | h1 <;> rw [h1] <;> intro hc <;> exact Outcome.noConfusion hc

/-- Witness for `c4_amended`: a concrete cancelled run. -/
theorem c4_amended_witness :
    (runSession [] "h" { responseOk := true, items := [], stopIdx := some 0 }
        = Outcome.abortedQuiet
      ∨ runSession [] "h" { responseOk := true, items := [], stopIdx := some 0 }
        = Outcome.failedCaught "h")
  ∧ ∀ nf, runSession [] "h" { responseOk := true, items := [], stopIdx := some 0 }
      ≠ Outcome.applied nf :=
  c4_amended [] "h" { responseOk := true, items := [], stopIdx := some 0 } (by decide)

/-! ## C5 — cancellation surfaced as failure -/

/-- Claim C5, code bug:  The spec requires that user cancellation never be
surfaced as a failure (`Aborted` distinct from `Failed`), and the code's own
cancellation handling shows that intent (`handleStopFixing` shows an *info*
toast "Error fixing cancelled"; the loop's stop branch logs a quiet
cancellation).  But the generic `catch` of `handleSandboxError` does not
exclude the `AbortError` produced when Stop aborts the pending stream read:
in that (ordinary) timing the cancelled session takes the failure path and
shows `toast.error('Failed to auto-fix the error')` — cancellation is
surfaced to the user as a failure. -/
theorem c5_cancellation_takes_failure_path :
    runSession [{ path := "/src/index.tsx", content := "const c = 3" }]
        "Runtime Error:y"
        { responseOk := true, items := [LoopItem.readAborts], stopIdx := some 1 }
      = Outcome.failedCaught "Runtime Error:y" := by decide

/-! ### Monitor lemmas -/

theorem classify_isSuccessMsg_false (m : SPMessage) (et em : String)
    (hcl : classify m = some (et, em)) : isSuccessMsg m = false := by
  cases m with
  | done ce =>
    cases ce with
    | true => rfl
    | false => simp [classify] at hcl
  | showError a b c d e => rfl
  | notification a b => rfl
  | consoleMsg a b => rfl
  | stateMsg => rfl

theorem classify_et_ne_empty (m : SPMessage) (et em : String)
    (hcl : classify m = some (et, em)) : et ≠ "" := by
  cases m with
  | done ce =>
    cases ce with
    | true =>
      simp [classify] at hcl
      rw [← hcl.1]
      decide
    | false => simp [classify] at hcl
  | showError a b c d e =>
    simp [classify] at hcl
    rw [← hcl.1]
    decide
  | notification nt title =>
    by_cases h : nt = "error"
    · simp [classify, h] at hcl
      rw [← hcl.1]
      decide
    · simp [classify, h] at hcl
  | consoleMsg cs log =>
    cases cs with
    | false => simp [classify] at hcl
    | true =>
      cases log with
      | none => simp [classify] at hcl
      | some logs =>
        rw [classify] at hcl
        simp only [if_true] at hcl
        split at hcl
        · exact absurd hcl (by simp)
        · split at hcl
          · rw [Option.some_inj, Prod.mk.injEq] at hcl
            rw [← hcl.1]
            decide
          · exact absurd hcl (by simp)
  | stateMsg => simp [classify] at hcl

theorem mkHash_ne_empty (et em : String) (h : et ≠ "") : mkHash et em ≠ "" := by
  intro hcontra
  apply h
  have hlen : (mkHash et em).length = 0 := by rw [hcontra]; rfl
  rw [mkHash, String.length_append, String.length_append] at hlen
  have : et.length = 0 := by omega
  cases et with
  | mk data =>
    cases data with
    | nil => rfl
    | cons c cs => simp [String.length] at this

theorem monitorStep_accept (s : MonitorState) (m : SPMessage) (t : Nat)
    (et em : String) (hcl : classify m = some (et, em))
    (hcd : s.errorCooldown = false)
    (hmem : mkHash et em ∉ s.fixedErrors)
    (hlast : mkHash et em ≠ s.lastErrorHash)
    (hgrace : ¬(t - s.lastSuccessTime < 2000)) :
    monitorStep s (MEvent.msg m t)
      = ({ lastErrorHash := mkHash et em,
           fixedErrors := insertHash (mkHash et em) s.fixedErrors,
           errorCooldown := true, lastSuccessTime := s.lastSuccessTime },
         some (et, em, mkHash et em)) := by
  have hsucc := classify_isSuccessMsg_false m et em hcl
  rw [monitorStep]
  simp [hsucc, hcl, hcd, hmem, hlast, hgrace]

theorem monitorStep_suppress_of_cooldown (s : MonitorState) (m : SPMessage)
    (t : Nat) (h : s.errorCooldown = true) :
    (monitorStep s (MEvent.msg m t)).2 = none := by
  rw [monitorStep]
  cases hsucc : isSuccessMsg m with
  | true => simp [hsucc]
  | false =>
    cases hcl : classify m with
    | none => simp [hsucc, hcl]
    | some p =>
      obtain ⟨et, em⟩ := p
      simp [hsucc, hcl, h]

theorem monitorStep_preserves_cooldown (s : MonitorState) (e : MEvent)
    (hc : s.errorCooldown = true)
    (hT : e ≠ MEvent.cooldownTimer)
    (hS : ∀ m t, e = MEvent.msg m t → isSuccessMsg m = false) :
    ((monitorStep s e).1).errorCooldown = true := by
  cases e with
  | msg m t =>
    have hs := hS m t rfl
    rw [monitorStep]
    cases hcl : classify m with
    | none => simp [hs, hcl, hc]
    | some p =>
      obtain ⟨et, em⟩ := p
      simp [hs, hcl, hc]
  | cooldownTimer => exact absurd rfl hT
  | fixApplied t => simpa [monitorStep] using hc
  | fixFailed hsh => simpa [monitorStep] using hc

theorem runMonitor_preserves_cooldown (evs : List MEvent) (s : MonitorState)
    (hc : s.errorCooldown = true)
    (hevs : ∀ e ∈ evs, e ≠ MEvent.cooldownTimer
      ∧ ∀ m t, e = MEvent.msg m t → isSuccessMsg m = false) :
    (runMonitor s evs).errorCooldown = true := by
  induction evs generalizing s with
  | nil => exact hc
  | cons e rest ih =>
    have he := hevs e (List.mem_cons_self e rest)
    exact ih _ (monitorStep_preserves_cooldown s e hc he.1 he.2)
      (fun e' h' => hevs e' (List.mem_cons_of_mem e h'))

/-! ## C8 — idempotent suppression inside the cooldown window -/

/-- Claim C8:  If a fault is Accepted at `t1` (the four admission guards held),
then a second admission attempt — of the same fault or any other message — at
any point before the 5-second cooldown `setTimeout` has fired
(`cooldownTimer`, scheduled for `t1 + 5000`, hence absent for every
`t2 < t1 + 5000`) and before any successful-build message returns Suppress:
no second repair session starts.  Arbitrary other events (further suppressed
faults, a failed or applied fix) may occur in between. -/
theorem c8_idempotent_suppression (s : MonitorState) (m : SPMessage) (t1 : Nat)
    (et em : String) (hcl : classify m = some (et, em))
    (hcd : s.errorCooldown = false)
    (hmem : mkHash et em ∉ s.fixedErrors)
    (hlast : mkHash et em ≠ s.lastErrorHash)
    (hgrace : ¬(t1 - s.lastSuccessTime < 2000))
    (evs : List MEvent)
    (hevs : ∀ e ∈ evs, e ≠ MEvent.cooldownTimer
      ∧ ∀ m' t', e = MEvent.msg m' t' → isSuccessMsg m' = false)
    (m2 : SPMessage) (t2 : Nat) :
    (monitorStep s (MEvent.msg m t1)).2 = some (et, em, mkHash et em)
  ∧ (monitorStep (runMonitor (monitorStep s (MEvent.msg m t1)).1 evs)
        (MEvent.msg m2 t2)).2 = none := by
  have hacc := monitorStep_accept s m t1 et em hcl hcd hmem hlast hgrace
  constructor
  · rw [hacc]
  · have h1 : ((monitorStep s (MEvent.msg m t1)).1).errorCooldown = true := by
      rw [hacc]
    have h2 := runMonitor_preserves_cooldown evs _ h1 hevs
    exact monitorStep_suppress_of_cooldown _ m2 t2 h2

/-- Witness for `c8_idempotent_suppression`: a concrete compilation error
accepted at 10000ms, re-observed at 11000ms and 12000ms. -/
theorem c8_witness :
    (monitorStep monitorInit
        (MEvent.msg (SPMessage.showError (some "SyntaxError: boom") none none none none)
          10000)).2
      = some ("Compilation Error", "SyntaxError: boom",
          mkHash "Compilation Error" "SyntaxError: boom")
  ∧ (monitorStep (runMonitor (monitorStep monitorInit
        (MEvent.msg (SPMessage.showError (some "SyntaxError: boom") none none none none)
          10000)).1
        [MEvent.msg (SPMessage.showError (some "SyntaxError: boom") none none none none)
          11000])
        (MEvent.msg (SPMessage.showError (some "SyntaxError: boom") none none none none)
          12000)).2 = none :=
  c8_idempotent_suppression monitorInit
    (SPMessage.showError (some "SyntaxError: boom") none none none none) 10000
    "Compilation Error" "SyntaxError: boom" (by decide) (by decide) (by decide)
    (by decide) (by decide)
    [MEvent.msg (SPMessage.showError (some "SyntaxError: boom") none none none none)
      11000]
    (by
      intro e he
      simp only [List.mem_singleton] at he
      subst he
      refine ⟨by decide, ?_⟩
      intro m' t' heq
      cases heq
      decide)
    (SPMessage.showError (some "SyntaxError: boom") none none none none) 12000

/-! ## C7 — post-success grace window -/

/-- Claim C7:  After a successful-build message at time `T`, *every* fault
message processed at a time `t2` with `t2 - T < 2000` is suppressed — no
repair session starts — regardless of whether its fingerprint is novel: the
novel-hash branch is stopped by the grace-window check, and the
equal-to-`lastErrorHash` branch never accepts at all. -/
theorem c7_grace_window_suppression (s : MonitorState) (T : Nat) (m : SPMessage)
    (t2 : Nat) (hgrace : t2 - T < 2000) :
    (monitorStep (monitorStep s (MEvent.msg (SPMessage.done false) T)).1
        (MEvent.msg m t2)).2 = none := by
  have hs : (monitorStep s (MEvent.msg (SPMessage.done false) T)).1
      = { s with fixedErrors := [], errorCooldown := false,
                 lastSuccessTime := T } := rfl
  rw [hs, monitorStep]
  cases hsucc : isSuccessMsg m with
  | true => simp [hsucc]
  | false =>
    cases hcl : classify m with
    | none => simp [hsucc, hcl]
    | some p =>
      obtain ⟨et, em⟩ := p
      by_cases hl : mkHash et em = s.lastErrorHash
      · simp [hsucc, hcl, hl]
      · simp [hsucc, hcl, hl, hgrace]

/-- Witness for `c7_grace_window_suppression`: a brand-new runtime error
1000ms after a success is suppressed. -/
theorem c7_witness :
    (monitorStep (monitorStep monitorInit
        (MEvent.msg (SPMessage.done false) 20000)).1
        (MEvent.msg (SPMessage.showError (some "fresh Error here") none none none none)
          21000)).2 = none :=
  c7_grace_window_suppression monitorInit 20000
    (SPMessage.showError (some "fresh Error here") none none none none) 21000
    (by decide)

/-! ## C3 — post-success reset -/

/-- Claim C3, counterexample:  The claim states that after a `BuildSucceeded`
signal, admitting *any* previously-seen fault (outside the grace window)
returns Accept.  False: the success handler clears `fixedErrors` but does
*not* clear `lastErrorHash`, so the most recently accepted fault — here
accepted at 10000ms, with the build succeeding at 20000ms and the same fault
re-observed at 22500ms, past the 2000ms grace window — is still suppressed by
the `errorHash !== lastErrorHash` branch.  (The first conjunct shows the
fault had been accepted, the second that `seenFingerprints` is empty after
the success.) -/
theorem c3_counterexample :
    (monitorStep monitorInit
        (MEvent.msg (SPMessage.showError (some "TypeError: x is not a function")
          none none none none) 10000)).2.isSome = true
  ∧ (runMonitor monitorInit
        [MEvent.msg (SPMessage.showError (some "TypeError: x is not a function")
          none none none none) 10000,
         MEvent.msg (SPMessage.done false) 20000]).fixedErrors = []
  ∧ (monitorStep (runMonitor monitorInit
        [MEvent.msg (SPMessage.showError (some "TypeError: x is not a function")
          none none none none) 10000,
         MEvent.msg (SPMessage.done false) 20000])
        (MEvent.msg (SPMessage.showError (some "TypeError: x is not a function")
          none none none none) 22500)).2 = none := by
  refine ⟨by decide, by decide, by decide⟩

/-- Claim C3, amended:  After a successful-build message at time `T`,
`seenFingerprints` (`fixedErrors`) is empty, and admitting a fault at
`t2` with `t2 - T ≥ 2000` returns Accept *provided its fingerprint differs
from the retained `lastErrorHash`* (the hash of the most recently accepted
fault, which the success handler does not clear); the fault whose fingerprint
equals `lastErrorHash` remains suppressed, as the counterexample shows. -/
theorem c3_amended (s : MonitorState) (T : Nat) (m : SPMessage) (t2 : Nat)
    (et em : String) (hcl : classify m = some (et, em))
    (hlast : mkHash et em ≠ s.lastErrorHash)
    (hgrace : ¬(t2 - T < 2000)) :
    ((monitorStep s (MEvent.msg (SPMessage.done false) T)).1).fixedErrors = []
  ∧ (monitorStep (monitorStep s (MEvent.msg (SPMessage.done false) T)).1
        (MEvent.msg m t2)).2 = some (et, em, mkHash et em) := by
  have hs : (monitorStep s (MEvent.msg (SPMessage.done false) T)).1
      = { s with fixedErrors := [], errorCooldown := false,
                 lastSuccessTime := T } := rfl
  constructor
  · rw [hs]
  · rw [hs]
    have hacc := monitorStep_accept
      { s with fixedErrors := [], errorCooldown := false, lastSuccessTime := T }
      m t2 et em hcl rfl (by simp) hlast hgrace
    rw [hacc]

/-- Witness for `c3_amended`: after a success, a previously-seen fault whose
hash differs from the retained `lastErrorHash` is accepted again. -/
theorem c3_amended_witness :
    ((monitorStep
        { lastErrorHash := "Build Error:old boom",
          fixedErrors := ["Build Error:old boom", "Compilation Error:SyntaxError: boom"],
          errorCooldown := false, lastSuccessTime := 0 }
        (MEvent.msg (SPMessage.done false) 20000)).1).fixedErrors = []
  ∧ (monitorStep (monitorStep
        { lastErrorHash := "Build Error:old boom",
          fixedErrors := ["Build Error:old boom", "Compilation Error:SyntaxError: boom"],
          errorCooldown := false, lastSuccessTime := 0 }
        (MEvent.msg (SPMessage.done false) 20000)).1
        (MEvent.msg (SPMessage.showError (some "SyntaxError: boom") none none none none)
          22500)).2
      = some ("Compilation Error", "SyntaxError: boom",
          mkHash "Compilation Error" "SyntaxError: boom") :=
  c3_amended
    { lastErrorHash := "Build Error:old boom",
      fixedErrors := ["Build Error:old boom", "Compilation Error:SyntaxError: boom"],
      errorCooldown := false, lastSuccessTime := 0 }
    20000 (SPMessage.showError (some "SyntaxError: boom") none none none none) 22500
    "Compilation Error" "SyntaxError: boom" (by decide) (by decide) (by decide)

/-! ## C6 — failure eviction -/

/-- Claim C6:  A fault Accepted at `t1` whose repair session ends in the
failure path (`fixFailed`, which deletes the `errorHash` from `fixedErrors`
and resets `lastErrorHash` to `''`) is Accepted *again* when the identical
fault re-arrives after the cooldown timeout has fired (`cooldownTimer`) —
it is not infinitely suppressed by the failed attempt.  The grace-window
hypotheses are the admission algorithm's remaining guards at the two arrival
times. -/
theorem c6_failure_eviction_reaccept (s : MonitorState) (m : SPMessage)
    (t1 t2 : Nat) (et em : String) (hcl : classify m = some (et, em))
    (hcd : s.errorCooldown = false)
    (hmem : mkHash et em ∉ s.fixedErrors)
    (hlast : mkHash et em ≠ s.lastErrorHash)
    (hgrace1 : ¬(t1 - s.lastSuccessTime < 2000))
    (hgrace2 : ¬(t2 - s.lastSuccessTime < 2000)) :
    (monitorStep s (MEvent.msg m t1)).2 = some (et, em, mkHash et em)
  ∧ (monitorStep (runMonitor (monitorStep s (MEvent.msg m t1)).1
        [MEvent.fixFailed (mkHash et em), MEvent.cooldownTimer])
        (MEvent.msg m t2)).2 = some (et, em, mkHash et em) := by
  have hacc := monitorStep_accept s m t1 et em hcl hcd hmem hlast hgrace1
  have het := classify_et_ne_empty m et em hcl
  constructor
  · rw [hacc]
  · rw [hacc]
    have hstate : runMonitor
        { lastErrorHash := mkHash et em,
          fixedErrors := insertHash (mkHash et em) s.fixedErrors,
          errorCooldown := true, lastSuccessTime := s.lastSuccessTime }
        [MEvent.fixFailed (mkHash et em), MEvent.cooldownTimer]
      = { lastErrorHash := "",
          fixedErrors := (insertHash (mkHash et em) s.fixedErrors).filter
            (fun x => x ≠ mkHash et em),
          errorCooldown := false, lastSuccessTime := s.lastSuccessTime } := rfl
    rw [hstate]
    have hmem2 : mkHash et em ∉ (insertHash (mkHash et em) s.fixedErrors).filter
        (fun x => x ≠ mkHash et em) := by
      simp [List.mem_filter]
    have hlast2 : mkHash et em ≠ "" := mkHash_ne_empty et em het
    have hacc2 := monitorStep_accept
      { lastErrorHash := "",
        fixedErrors := (insertHash (mkHash et em) s.fixedErrors).filter
          (fun x => x ≠ mkHash et em),
        errorCooldown := false, lastSuccessTime := s.lastSuccessTime }
      m t2 et em hcl rfl hmem2 hlast2 hgrace2
    rw [hacc2]

/-- Witness for `c6_failure_eviction_reaccept`: a runtime error accepted at
10000ms, its fix failing, the cooldown timer firing, and the identical error
re-accepted at 16000ms. -/
theorem c6_witness :
    (monitorStep monitorInit
        (MEvent.msg (SPMessage.notification "error" (some "bundling Error")) 10000)).2
      = some ("Build Error", "bundling Error", mkHash "Build Error" "bundling Error")
  ∧ (monitorStep (runMonitor (monitorStep monitorInit
        (MEvent.msg (SPMessage.notification "error" (some "bundling Error")) 10000)).1
        [MEvent.fixFailed (mkHash "Build Error" "bundling Error"),
         MEvent.cooldownTimer])
        (MEvent.msg (SPMessage.notification "error" (some "bundling Error")) 16000)).2
      = some ("Build Error", "bundling Error", mkHash "Build Error" "bundling Error") :=
  c6_failure_eviction_reaccept monitorInit
    (SPMessage.notification "error" (some "bundling Error")) 10000 16000
    "Build Error" "bundling Error" (by decide) (by decide) (by decide) (by decide)
    (by decide) (by decide)
